import Mathlib

/-!
# Omnispace whiteboard: shallow embedding and verification

A shallow embedding of the camera model, item store and interaction
handlers of the Omnispace infinite-canvas whiteboard (`src/App.jsx`,
`src/components/CanvasItem.jsx`), with theorems settling the spec's
claims about them.  JavaScript floating-point numbers are embedded as
exact rationals (`ℚ`).
-/

namespace Omnispace

/-- Camera state `{x, y, zoom}` (App.jsx `useState({ x: 0, y: 0, zoom: 1 })`). -/
@[ext]
structure Camera where
  x : ℚ
  y : ℚ
  zoom : ℚ
deriving DecidableEq, Repr

/-- The initial camera `{ x: 0, y: 0, zoom: 1 }`. -/
def initialCamera : Camera := { x := 0, y := 0, zoom := 1 }

/-- A screen- or world-space point. -/
@[ext]
structure Point where
  x : ℚ
  y : ℚ
deriving DecidableEq, Repr

/-- Screen-to-world conversion used throughout App.jsx (lines 118-119,
146-147, 234-235, 295-296, 344-345):
`world = (screen - viewportCenter) / zoom + camera`. -/
def screenToWorld (screen : Point) (cam : Camera) (center : Point) : Point :=
  { x := (screen.x - center.x) / cam.zoom + cam.x,
    y := (screen.y - center.y) / cam.zoom + cam.y }

/-- `handleWheel` (App.jsx 286-307).  `mouse` is the pointer position relative
to the viewport, `center` is `(window.innerWidth / 2, window.innerHeight / 2)`,
and `deltaY` is the wheel delta: `deltaY > 0` zooms out (factor 0.9),
otherwise zooms in (factor 1.1).  The new zoom is clamped to `[0.1, 5]` and
the camera is re-anchored so the world point under the cursor is unchanged. -/
def handleWheel (cam : Camera) (mouse center : Point) (deltaY : ℚ) : Camera :=
  let worldX := (mouse.x - center.x) / cam.zoom + cam.x
  let worldY := (mouse.y - center.y) / cam.zoom + cam.y
  let zoomDelta : ℚ := if 0 < deltaY then 9/10 else 11/10
  let newZoom := max (1/10) (min 5 (cam.zoom * zoomDelta))
  let newCamX := worldX - (mouse.x - center.x) / newZoom
  let newCamY := worldY - (mouse.y - center.y) / newZoom
  { x := newCamX, y := newCamY, zoom := newZoom }

/-- Pan-start data captured on mouse down (App.jsx 130-135). -/
structure PanStart where
  mouseX : ℚ
  mouseY : ℚ
  camX : ℚ
  camY : ℚ
deriving DecidableEq, Repr

/-- The panning branch of `handleMouseMove` (App.jsx 153-165): the camera
moves opposite to the screen-space drag delta, scaled by `1 / zoom`; the
zoom field is spread through unchanged. -/
def panCamera (cam : Camera) (ps : PanStart) (clientX clientY : ℚ) : Camera :=
  { cam with
    x := ps.camX - (clientX - ps.mouseX) / cam.zoom,
    y := ps.camY - (clientY - ps.mouseY) / cam.zoom }

/-- The cameras reachable from the initial camera by the two
camera-mutating operations: panning and wheel zooming. -/
inductive ReachableCamera : Camera → Prop where
  | init : ReachableCamera initialCamera
  | pan : ∀ {cam : Camera} (ps : PanStart) (clientX clientY : ℚ),
      ReachableCamera cam → ReachableCamera (panCamera cam ps clientX clientY)
  | wheel : ∀ {cam : Camera} (mouse center : Point) (deltaY : ℚ),
      ReachableCamera cam → ReachableCamera (handleWheel cam mouse center deltaY)

/-- C1: the wheel-zoom operation preserves the world point under the anchor:
`screenToWorld(anchor, camera', center) = screenToWorld(anchor, camera, center)`
for any camera with zoom in `[0.1, 5]`, any anchor, any viewport center and
either zoom direction (exact rational arithmetic). -/
theorem handleWheel_preserves_anchor (cam : Camera) (mouse center : Point)
    (deltaY : ℚ) (h1 : 1/10 ≤ cam.zoom) (h2 : cam.zoom ≤ 5) :
    screenToWorld mouse (handleWheel cam mouse center deltaY) center =
      screenToWorld mouse cam center := by
  unfold handleWheel screenToWorld
  ext <;> dsimp only <;> ring

/-- Witness for `handleWheel_preserves_anchor` at a concrete camera, anchor,
center and wheel delta. -/
theorem handleWheel_preserves_anchor_witness :
    screenToWorld ⟨3, 4⟩ (handleWheel ⟨2, 7, 1⟩ ⟨3, 4⟩ ⟨10, 20⟩ 1) ⟨10, 20⟩ =
      screenToWorld ⟨3, 4⟩ ⟨2, 7, 1⟩ ⟨10, 20⟩ :=
  handleWheel_preserves_anchor ⟨2, 7, 1⟩ ⟨3, 4⟩ ⟨10, 20⟩ 1 (by norm_num) (by norm_num)

/-- C2: every reachable camera has zoom in `[0.1, 5]`: the initial zoom is 1,
panning leaves the zoom unchanged, and wheel zooming clamps the new zoom into
the interval. -/
theorem reachable_camera_zoom_bounds (cam : Camera) (h : ReachableCamera cam) :
    1/10 ≤ cam.zoom ∧ cam.zoom ≤ 5 := by
  induction h with
  | init => norm_num [initialCamera]
  | pan ps clientX clientY _ ih => simpa [panCamera] using ih
  | wheel mouse center deltaY _ ih =>
      refine ⟨le_max_left _ _, max_le (by norm_num) ?_⟩
      exact min_le_left _ _

/-- Witness for `reachable_camera_zoom_bounds` at the camera obtained from the
initial camera by one zoom-in step. -/
theorem reachable_camera_zoom_bounds_witness :
    1/10 ≤ (handleWheel initialCamera ⟨0, 0⟩ ⟨0, 0⟩ (-1)).zoom ∧
      (handleWheel initialCamera ⟨0, 0⟩ ⟨0, 0⟩ (-1)).zoom ≤ 5 :=
  reachable_camera_zoom_bounds _
    (ReachableCamera.wheel ⟨0, 0⟩ ⟨0, 0⟩ (-1) ReachableCamera.init)

/-- C10: at a saturated zoom boundary (zoom 5 with a zoom-in wheel delta, or
zoom 0.1 with a zoom-out wheel delta) the clamp returns the old zoom and the
recomputed camera position equals the old position, so `handleWheel` is the
identity on the camera. -/
theorem handleWheel_saturated_identity (cam : Camera) (mouse center : Point)
    (deltaY : ℚ)
    (h : (cam.zoom = 5 ∧ ¬ 0 < deltaY) ∨ (cam.zoom = 1/10 ∧ 0 < deltaY)) :
    handleWheel cam mouse center deltaY = cam := by
  unfold handleWheel
  obtain ⟨hz, hd⟩ | ⟨hz, hd⟩ := h
  · ext <;> dsimp only <;> rw [if_neg hd, hz]
    · have h5 : max (1/10 : ℚ) (min 5 (5 * (11/10))) = 5 := by norm_num
      rw [h5]; ring
    · have h5 : max (1/10 : ℚ) (min 5 (5 * (11/10))) = 5 := by norm_num
      rw [h5]; ring
    · norm_num
  · ext <;> dsimp only <;> rw [if_pos hd, hz]
    · have h01 : max (1/10 : ℚ) (min 5 (1/10 * (9/10))) = 1/10 := by norm_num
      rw [h01]; ring
    · have h01 : max (1/10 : ℚ) (min 5 (1/10 * (9/10))) = 1/10 := by norm_num
      rw [h01]; ring
    · norm_num

/-- Witness for `handleWheel_saturated_identity`: a zoom-in wheel event at
zoom 5 leaves the camera unchanged. -/
theorem handleWheel_saturated_identity_witness :
    handleWheel ⟨3, 4, 5⟩ ⟨7, 8⟩ ⟨9, 10⟩ (-1) = ⟨3, 4, 5⟩ :=
  handleWheel_saturated_identity ⟨3, 4, 5⟩ ⟨7, 8⟩ ⟨9, 10⟩ (-1)
    (Or.inl ⟨rfl, by norm_num⟩)

/-! ## Item model (`items` table, scripts/createTable.sql) -/

/-- The item `type` column: `CHECK (type IN ('file', 'text', 'rectangle'))`. -/
inductive ItemType where
  | file
  | text
  | rectangle
deriving DecidableEq, Repr

/-- A row of the `items` table.  `id` (a UUID in the schema) and `created_at`
(a timestamp) are embedded as opaque naturals; world coordinates and sizes as
exact rationals. -/
structure Item where
  id : ℕ
  type : ItemType
  x : ℚ
  y : ℚ
  width : ℚ
  height : ℚ
  content : Option String := none
  file_name : Option String := none
  created_at : ℕ
deriving DecidableEq, Repr

/-! ## Rectangle drawing (`handleMouseUp`, App.jsx 168-210) -/

/-- The bounding box computed at App.jsx 172-175. -/
structure RectBounds where
  x : ℚ
  y : ℚ
  width : ℚ
  height : ℚ
deriving DecidableEq, Repr

/-- `x = min(start.x, current.x)`, `y = min(start.y, current.y)`,
`width = |current.x - start.x|`, `height = |current.y - start.y|`
(App.jsx 172-175). -/
def rectangleBounds (drawStart drawCurrent : Point) : RectBounds :=
  { x := min drawStart.x drawCurrent.x,
    y := min drawStart.y drawCurrent.y,
    width := |drawCurrent.x - drawStart.x|,
    height := |drawCurrent.y - drawStart.y| }

/-- The rectangle-completion branch of `handleMouseUp` (App.jsx 168-210),
success path of the insert: the new row (with server-assigned `id` and
`created_at`) is appended to the item store iff `width > 10 && height > 10`;
otherwise the store is left unchanged. -/
def handleMouseUpRect (items : List Item) (drawStart drawCurrent : Point)
    (newId createdAt : ℕ) : List Item :=
  let b := rectangleBounds drawStart drawCurrent
  if 10 < b.width ∧ 10 < b.height then
    items ++ [{ id := newId, type := ItemType.rectangle, x := b.x, y := b.y,
                width := b.width, height := b.height, created_at := createdAt }]
  else
    items

/-- C3: at the end of a rectangle draw the bounding box is
`(min x, min y, |dx|, |dy|)`; the rectangle item with exactly those fields is
appended iff both extents exceed 10 world units, and otherwise the store is
unchanged; in particular a drag from `(10,10)` to `(200,150)` yields bounds
`x=10, y=10, width=190, height=140`. -/
theorem rectangle_draw_spec (items : List Item) (s c : Point) (nid ct : ℕ) :
    (10 < (rectangleBounds s c).width ∧ 10 < (rectangleBounds s c).height →
      handleMouseUpRect items s c nid ct =
        items ++ [{ id := nid, type := ItemType.rectangle,
                    x := min s.x c.x, y := min s.y c.y,
                    width := |c.x - s.x|, height := |c.y - s.y|,
                    created_at := ct }]) ∧
    (¬ (10 < (rectangleBounds s c).width ∧ 10 < (rectangleBounds s c).height) →
      handleMouseUpRect items s c nid ct = items) ∧
    rectangleBounds ⟨10, 10⟩ ⟨200, 150⟩ = ⟨10, 10, 190, 140⟩ := by
  refine ⟨fun h => ?_, fun h => ?_, by simp only [rectangleBounds]; norm_num⟩
  · simp only [handleMouseUpRect]
    rw [if_pos h]
    simp [rectangleBounds]
  · simp only [handleMouseUpRect]
    rw [if_neg h]

/-- Witness for `rectangle_draw_spec`: the concrete drag from `(10,10)` to
`(200,150)` appends the rectangle `x=10, y=10, width=190, height=140`. -/
theorem rectangle_draw_spec_witness :
    handleMouseUpRect [] ⟨10, 10⟩ ⟨200, 150⟩ 1 1 =
      [] ++ [{ id := 1, type := ItemType.rectangle, x := min (10:ℚ) 200,
               y := min (10:ℚ) 150, width := |(200:ℚ) - 10|,
               height := |(150:ℚ) - 10|, created_at := 1 }] :=
  (rectangle_draw_spec [] ⟨10, 10⟩ ⟨200, 150⟩ 1 1).1
    (by simp only [rectangleBounds]; norm_num)

/-! ## Resizing (`handleItemResizeMove`, App.jsx 459-484) -/

/-- The dimension computation of `handleItemResizeMove` (App.jsx 462-476):
screen deltas are converted to world deltas by dividing by the zoom, and for
the `'se'` handle the new size is floored at `100 × 60`; any other direction
leaves the original size. -/
def resizeDims (direction : String) (originalWidth originalHeight : ℚ)
    (deltaX deltaY zoom : ℚ) : ℚ × ℚ :=
  let worldDeltaX := deltaX / zoom
  let worldDeltaY := deltaY / zoom
  if direction = "se" then
    (max 100 (originalWidth + worldDeltaX), max 60 (originalHeight + worldDeltaY))
  else
    (originalWidth, originalHeight)

/-- C6: during a `'se'` resize with zoom `z > 0` the new size is
`(max 100 (w0 + dx/z), max 60 (h0 + dy/z))`, hence always at least `100 × 60`;
in particular shrinking a `200 × 200` item to a requested `50 × 30` yields
`100 × 60`. -/
theorem resize_se_floor (w0 h0 dx dy z : ℚ) (hz : 0 < z) :
    (resizeDims "se" w0 h0 dx dy z).1 = max 100 (w0 + dx / z) ∧
    (resizeDims "se" w0 h0 dx dy z).2 = max 60 (h0 + dy / z) ∧
    100 ≤ (resizeDims "se" w0 h0 dx dy z).1 ∧
    60 ≤ (resizeDims "se" w0 h0 dx dy z).2 ∧
    resizeDims "se" 200 200 (-150) (-170) 1 = (100, 60) := by
  refine ⟨rfl, rfl, le_max_left _ _, le_max_left _ _, ?_⟩
  unfold resizeDims
  norm_num

/-- Witness for `resize_se_floor` at a concrete original size, deltas and
zoom. -/
theorem resize_se_floor_witness :
    (resizeDims "se" 200 200 (-150) (-170) 1).1 = max 100 (200 + (-150) / 1) ∧
    (resizeDims "se" 200 200 (-150) (-170) 1).2 = max 60 (200 + (-170) / 1) ∧
    100 ≤ (resizeDims "se" 200 200 (-150) (-170) 1).1 ∧
    60 ≤ (resizeDims "se" 200 200 (-150) (-170) 1).2 ∧
    resizeDims "se" 200 200 (-150) (-170) 1 = (100, 60) :=
  resize_se_floor 200 200 (-150) (-170) 1 (by norm_num)

/-! ## Rectangle title editing (`saveRectangleTitle`, App.jsx 720-754) -/

/-- `saveRectangleTitle` (App.jsx 720-754), success path of the update: the
trimmed title is written to the `content` field of the item whose id matches
the editing session (`title || null` maps an empty trimmed title to null);
no other field and no other item is touched. -/
def saveRectangleTitle (items : List Item) (itemId : ℕ)
    (rectangleTitleValue : String) : List Item :=
  let title := rectangleTitleValue.trim
  items.map fun item =>
    if item.id = itemId then
      { item with content := if title = "" then none else some title }
    else item

/-- C9: saving a rectangle title mutates only the `content` field of the
targeted item: for every item, `x`, `y`, `width`, `height`, `type`,
`file_name`, `id` and `created_at` are unchanged, and every item whose id
differs from the editing session's is entirely unchanged. -/
theorem save_rectangle_title_frame (items : List Item) (itemId : ℕ)
    (title : String) :
    (saveRectangleTitle items itemId title).length = items.length ∧
    ∀ (k : ℕ) (hk : k < items.length)
      (hk' : k < (saveRectangleTitle items itemId title).length),
      ((saveRectangleTitle items itemId title).get ⟨k, hk'⟩).x =
          (items.get ⟨k, hk⟩).x ∧
      ((saveRectangleTitle items itemId title).get ⟨k, hk'⟩).y =
          (items.get ⟨k, hk⟩).y ∧
      ((saveRectangleTitle items itemId title).get ⟨k, hk'⟩).width =
          (items.get ⟨k, hk⟩).width ∧
      ((saveRectangleTitle items itemId title).get ⟨k, hk'⟩).height =
          (items.get ⟨k, hk⟩).height ∧
      ((saveRectangleTitle items itemId title).get ⟨k, hk'⟩).type =
          (items.get ⟨k, hk⟩).type ∧
      ((saveRectangleTitle items itemId title).get ⟨k, hk'⟩).file_name =
          (items.get ⟨k, hk⟩).file_name ∧
      ((saveRectangleTitle items itemId title).get ⟨k, hk'⟩).id =
          (items.get ⟨k, hk⟩).id ∧
      ((saveRectangleTitle items itemId title).get ⟨k, hk'⟩).created_at =
          (items.get ⟨k, hk⟩).created_at ∧
      ((items.get ⟨k, hk⟩).id ≠ itemId →
        (saveRectangleTitle items itemId title).get ⟨k, hk'⟩ =
          items.get ⟨k, hk⟩) := by
  refine ⟨by simp [saveRectangleTitle], ?_⟩
  intro k hk hk'
  simp only [saveRectangleTitle, List.get_eq_getElem, List.getElem_map]
  by_cases hid : (items.get ⟨k, hk⟩).id = itemId
  · simp only [List.get_eq_getElem] at hid
    simp [hid]
  · simp only [List.get_eq_getElem] at hid
    simp [hid]

/-- Witness for `save_rectangle_title_frame`: the frame conditions evaluated
at position 0 of a concrete two-item store. -/
theorem save_rectangle_title_frame_witness :
    ((saveRectangleTitle
        [{ id := 1, type := ItemType.rectangle, x := 0, y := 0, width := 300,
           height := 300, created_at := 0 },
         { id := 2, type := ItemType.text, x := 10, y := 10, width := 100,
           height := 50, created_at := 1 }] 1 " Folder ").get
        ⟨0, by decide⟩).x =
      (([{ id := 1, type := ItemType.rectangle, x := 0, y := 0, width := 300,
           height := 300, created_at := 0 },
         { id := 2, type := ItemType.text, x := 10, y := 10, width := 100,
           height := 50, created_at := 1 }] : List Item).get ⟨0, by decide⟩).x :=
  ((save_rectangle_title_frame
      [{ id := 1, type := ItemType.rectangle, x := 0, y := 0, width := 300,
         height := 300, created_at := 0 },
       { id := 2, type := ItemType.text, x := 10, y := 10, width := 100,
         height := 50, created_at := 1 }] 1 " Folder ").2 0 (by decide)
      (by decide)).1

/-! ## Click vs. drag (`handleClick`, CanvasItem.jsx 51-81) -/

/-- An action fired by a plain click on an item (CanvasItem.jsx 75-80):
opening a file's URL in a new tab, or opening the text editor on a text
item. -/
inductive ClickAction where
  | openFile (url : Option String)
  | openTextEditor (itemId : ℕ)
deriving DecidableEq, Repr

/-- `handleClick` (CanvasItem.jsx 51-81).  The source computes
`deltaX = |e.clientX - down.x|`, `deltaY = |e.clientY - down.y|`,
`distance = Math.sqrt(deltaX² + deltaY²)` and bails out when
`distance > 5`; both sides of that comparison are nonnegative, so the test
is embedded as the equivalent `deltaX² + deltaY² > 25` over exact
rationals (`click_vs_drag_straight_line_distance` bridges back to the real
square-root distance).  Otherwise a file item opens its URL and a text item
opens the editor; no other type fires an action. -/
def handleClick (mouseDownPos : Option Point) (e : Point) (item : Item) :
    Option ClickAction :=
  let isDrag : Bool :=
    match mouseDownPos with
    | some p =>
        let deltaX := |e.x - p.x|
        let deltaY := |e.y - p.y|
        decide (25 < deltaX ^ 2 + deltaY ^ 2)
    | none => false
  if isDrag then none
  else if item.type = ItemType.file then some (ClickAction.openFile item.content)
  else if item.type = ItemType.text then
    some (ClickAction.openTextEditor item.id)
  else none

/-- C5: the click-vs-drag decision depends only on the mouse-down and
mouse-up positions through their straight-line pixel distance: when
`√((e.x-p.x)² + (e.y-p.y)²) ≤ 5` the release is a plain click (a file item
fires open-file, a text item opens the editor), and when the distance
exceeds 5 no click action fires. -/
theorem click_vs_drag_straight_line_distance (p e : Point) (item : Item) :
    (Real.sqrt (((e.x : ℝ) - (p.x : ℝ)) ^ 2 + ((e.y : ℝ) - (p.y : ℝ)) ^ 2) ≤ 5 →
      handleClick (some p) e item =
        (if item.type = ItemType.file then
          some (ClickAction.openFile item.content)
        else if item.type = ItemType.text then
          some (ClickAction.openTextEditor item.id)
        else none)) ∧
    (5 < Real.sqrt (((e.x : ℝ) - (p.x : ℝ)) ^ 2 + ((e.y : ℝ) - (p.y : ℝ)) ^ 2) →
      handleClick (some p) e item = none) := by
  have hs : (0 : ℝ) ≤ ((e.x : ℝ) - (p.x : ℝ)) ^ 2 + ((e.y : ℝ) - (p.y : ℝ)) ^ 2 := by
    positivity
  have hcast : ((e.x : ℝ) - (p.x : ℝ)) ^ 2 + ((e.y : ℝ) - (p.y : ℝ)) ^ 2 =
      (((e.x - p.x) ^ 2 + (e.y - p.y) ^ 2 : ℚ) : ℝ) := by
    push_cast
    ring
  constructor
  · intro h
    have h25R : ((e.x : ℝ) - (p.x : ℝ)) ^ 2 + ((e.y : ℝ) - (p.y : ℝ)) ^ 2 ≤ 25 := by
      nlinarith [Real.sq_sqrt hs,
        Real.sqrt_nonneg (((e.x : ℝ) - (p.x : ℝ)) ^ 2 + ((e.y : ℝ) - (p.y : ℝ)) ^ 2)]
    have h25 : (e.x - p.x) ^ 2 + (e.y - p.y) ^ 2 ≤ (25 : ℚ) := by
      rw [hcast] at h25R
      exact_mod_cast h25R
    simp only [handleClick, sq_abs]
    rw [if_neg]
    simp only [decide_eq_true_eq, not_lt]
    exact h25
  · intro h
    have h25R : 25 < ((e.x : ℝ) - (p.x : ℝ)) ^ 2 + ((e.y : ℝ) - (p.y : ℝ)) ^ 2 := by
      nlinarith [Real.sq_sqrt hs,
        Real.sqrt_nonneg (((e.x : ℝ) - (p.x : ℝ)) ^ 2 + ((e.y : ℝ) - (p.y : ℝ)) ^ 2)]
    have h25 : (25 : ℚ) < (e.x - p.x) ^ 2 + (e.y - p.y) ^ 2 := by
      rw [hcast] at h25R
      exact_mod_cast h25R
    simp only [handleClick, sq_abs]
    rw [if_pos]
    simp only [decide_eq_true_eq]
    exact h25

/-- Witness for `click_vs_drag_straight_line_distance`: a release exactly
5px away from the press on a file item (distance `√(3² + 4²) = 5 ≤ 5`)
fires the open-file action. -/
theorem click_vs_drag_straight_line_distance_witness :
    handleClick (some ⟨0, 0⟩) ⟨3, 4⟩
        { id := 1, type := ItemType.file, x := 0, y := 0, width := 180,
          height := 120, content := some "url", file_name := some "f.txt",
          created_at := 0 } =
      (if ({ id := 1, type := ItemType.file, x := 0, y := 0, width := 180,
             height := 120, content := some "url", file_name := some "f.txt",
             created_at := 0 } : Item).type = ItemType.file then
        some (ClickAction.openFile (some "url"))
      else if ({ id := 1, type := ItemType.file, x := 0, y := 0, width := 180,
                 height := 120, content := some "url",
                 file_name := some "f.txt",
                 created_at := 0 } : Item).type = ItemType.text then
        some (ClickAction.openTextEditor 1)
      else none) :=
  (click_vs_drag_straight_line_distance ⟨0, 0⟩ ⟨3, 4⟩ _).1
    (by
      rw [show (((3 : ℚ) : ℝ) - ((0 : ℚ) : ℝ)) ^ 2 +
            (((4 : ℚ) : ℝ) - ((0 : ℚ) : ℝ)) ^ 2 = 5 ^ 2 by norm_num,
        Real.sqrt_sq (by norm_num)])

/-! ## Render z-order (`App` render, App.jsx 818-848) -/

/-- The render order of the item layer (App.jsx 818-848): all rectangle
items (`items.filter(item => item.type === 'rectangle')`) are emitted
first, then all non-rectangle items
(`items.filter(item => item.type !== 'rectangle')`), each filter preserving
item-store order.  The store itself is loaded sorted by `created_at`
ascending (`loadItems`, App.jsx 87-108). -/
def renderOrder (items : List Item) : List Item :=
  items.filter (fun item => item.type == ItemType.rectangle) ++
    items.filter (fun item => item.type != ItemType.rectangle)

/-- C7: if the item store is sorted by `created_at` ascending, then in the
render output every rectangle precedes every non-rectangle (for any pair in
render order, if the later one is a rectangle so is the earlier one), and
any two entries of the same tier appear in `created_at` ascending order;
in particular a store holding a text note created first and a rectangle
created last renders the rectangle before the text note. -/
theorem render_order_rectangles_first (items : List Item)
    (hsorted : items.Pairwise fun a b => a.created_at ≤ b.created_at) :
    ((renderOrder items).Pairwise fun a b =>
      (b.type = ItemType.rectangle → a.type = ItemType.rectangle) ∧
      ((a.type = ItemType.rectangle ↔ b.type = ItemType.rectangle) →
        a.created_at ≤ b.created_at)) ∧
    ∀ textItem rectItem : Item, textItem.type = ItemType.text →
      rectItem.type = ItemType.rectangle →
      renderOrder [textItem, rectItem] = [rectItem, textItem] := by
  constructor
  · rw [renderOrder, List.pairwise_append]
    refine ⟨?_, ?_, ?_⟩
    · refine List.Pairwise.imp_of_mem ?_
        (hsorted.sublist (List.filter_sublist items))
      intro a b ha _ hab
      have ha' : a.type = ItemType.rectangle := by
        simpa using (List.mem_filter.mp ha).2
      exact ⟨fun _ => ha', fun _ => hab⟩
    · refine List.Pairwise.imp_of_mem ?_
        (hsorted.sublist (List.filter_sublist items))
      intro a b _ hb hab
      have hb' : b.type ≠ ItemType.rectangle := by
        simpa using (List.mem_filter.mp hb).2
      exact ⟨fun hbr => absurd hbr hb', fun _ => hab⟩
    · intro a ha b hb
      have ha' : a.type = ItemType.rectangle := by
        simpa using (List.mem_filter.mp ha).2
      have hb' : b.type ≠ ItemType.rectangle := by
        simpa using (List.mem_filter.mp hb).2
      exact ⟨fun hbr => absurd hbr hb', fun hiff => absurd (hiff.mp ha') hb'⟩
  · intro t r ht hr
    simp [renderOrder, List.filter_cons, ht, hr]

/-- Witness for `render_order_rectangles_first` on a concrete store sorted
by creation time: a text note created first, a rectangle created last. -/
theorem render_order_rectangles_first_witness :
    renderOrder
        [{ id := 1, type := ItemType.text, x := 0, y := 0, width := 200,
           height := 60, content := some "note", created_at := 0 },
         { id := 2, type := ItemType.rectangle, x := 10, y := 10,
           width := 300, height := 300, created_at := 1 }] =
      [{ id := 2, type := ItemType.rectangle, x := 10, y := 10, width := 300,
         height := 300, created_at := 1 },
       { id := 1, type := ItemType.text, x := 0, y := 0, width := 200,
         height := 60, content := some "note", created_at := 0 }] :=
  (render_order_rectangles_first
      [{ id := 1, type := ItemType.text, x := 0, y := 0, width := 200,
         height := 60, content := some "note", created_at := 0 },
       { id := 2, type := ItemType.rectangle, x := 10, y := 10, width := 300,
         height := 300, created_at := 1 }]
      (by simp [List.pairwise_cons])).2
    { id := 1, type := ItemType.text, x := 0, y := 0, width := 200,
      height := 60, content := some "note", created_at := 0 }
    { id := 2, type := ItemType.rectangle, x := 10, y := 10, width := 300,
      height := 300, created_at := 1 } rfl rfl

/-! ## Text note editing (`saveTextNote`, App.jsx 627-703) -/

/-- Embeds the guard `!textValue.trim()` (App.jsx 628): a JS string trims
to the empty string exactly when every character is whitespace.  The check
is embedded at the character-list level to keep it kernel-computable. -/
def trimsToEmpty (textValue : String) : Bool :=
  textValue.data.all Char.isWhitespace

/-- The text-editing session record (App.jsx 19, 347, 354-360):
`{ x, y, itemId?, width?, height? }`. -/
structure EditingText where
  x : ℚ
  y : ℚ
  itemId : Option ℕ := none
  width : Option ℚ := none
  height : Option ℚ := none
deriving DecidableEq, Repr

/-- A persistence request issued by `saveTextNote`: an insert of a new text
row or an update of an existing row's content and size. -/
inductive TextPersistCall where
  | insertText (x y width height : ℚ) (content : String)
  | updateText (id : ℕ) (content : String) (width height : ℚ)
deriving DecidableEq, Repr

/-- The outcome of `saveTextNote`: the item store, the persistence call
issued (if any), and the editing session left open (if any). -/
structure SaveTextResult where
  items : List Item
  call : Option TextPersistCall
  editingText : Option EditingText
deriving DecidableEq, Repr

/-- `saveTextNote` (App.jsx 627-703), success path of the persistence
calls.  The guard `if (!textValue.trim() || !editingText)` closes the
editor without persisting whenever the draft trims to the empty string or
no editing session is active.  Otherwise `currentWidth`/`currentHeight`
(the rendered textarea's `offsetWidth`/`offsetHeight`) are clamped to at
most `600 × 400` and either an update (itemId set) or an insert (itemId
unset, `newId`/`createdAt` server-assigned) is issued. -/
def saveTextNote (items : List Item) (editingText : Option EditingText)
    (textValue : String) (currentWidth currentHeight : ℚ)
    (newId createdAt : ℕ) : SaveTextResult :=
  match editingText with
  | none => { items := items, call := none, editingText := none }
  | some et =>
    if trimsToEmpty textValue then
      { items := items, call := none, editingText := none }
    else
      let finalWidth := min currentWidth 600
      let finalHeight := min currentHeight 400
      match et.itemId with
      | some itemId =>
          { items := items.map fun item =>
              if item.id = itemId then
                { item with content := some textValue, width := finalWidth,
                            height := finalHeight }
              else item,
            call := some
              (TextPersistCall.updateText itemId textValue finalWidth
                finalHeight),
            editingText := none }
      | none =>
          { items := items ++
              [{ id := newId, type := ItemType.text, x := et.x, y := et.y,
                 width := finalWidth, height := finalHeight,
                 content := some textValue, created_at := createdAt }],
            call := some
              (TextPersistCall.insertText et.x et.y finalWidth finalHeight
                textValue),
            editingText := none }

/-- C8 counterexample: with a whitespace-only draft and an editing session
whose `itemId` IS set, the input is not in the claim's discard case
(draft empty AND itemId unset), so the claim demands an update-item call;
but `saveTextNote` discards whenever the draft trims to empty: no call is
issued and the store is unchanged. -/
theorem saveTextNote_whitespace_with_itemId_discards :
    trimsToEmpty " " = true ∧
    ¬ (trimsToEmpty " " = true ∧ (some 7 : Option ℕ) = none) ∧
    (saveTextNote
        [{ id := 7, type := ItemType.text, x := 5, y := 6, width := 200,
           height := 60, content := some "old", created_at := 0 }]
        (some { x := 5, y := 6, itemId := some 7, width := some 200,
                height := some 60 })
        " " 200 60 9 1).call = none ∧
    (saveTextNote
        [{ id := 7, type := ItemType.text, x := 5, y := 6, width := 200,
           height := 60, content := some "old", created_at := 0 }]
        (some { x := 5, y := 6, itemId := some 7, width := some 200,
                height := some 60 })
        " " 200 60 9 1).items =
      [{ id := 7, type := ItemType.text, x := 5, y := 6, width := 200,
         height := 60, content := some "old", created_at := 0 }] := by
  refine ⟨by decide, ?_, rfl, rfl⟩
  intro h
  exact Option.some_ne_none 7 h.2

/-- C8 (amended): when text editing ends, if the draft is empty or
whitespace-only — regardless of whether `itemId` is set — or no editing
session is active, the editor closes with no persistence call and the item
store unchanged; otherwise a persistence call is issued — create-item
(type text) when `itemId` is unset, update-item(content, width, height)
when it is set — with the saved width and height clamped to at most
`600 × 400`. -/
theorem saveTextNote_spec (items : List Item) (et : EditingText)
    (textValue : String) (cw ch : ℚ) (nid cat : ℕ) :
    (trimsToEmpty textValue = true →
      saveTextNote items (some et) textValue cw ch nid cat =
        { items := items, call := none, editingText := none }) ∧
    (saveTextNote items none textValue cw ch nid cat =
        { items := items, call := none, editingText := none }) ∧
    (trimsToEmpty textValue = false → et.itemId = none →
      (saveTextNote items (some et) textValue cw ch nid cat).call =
        some (TextPersistCall.insertText et.x et.y (min cw 600) (min ch 400)
          textValue)) ∧
    (∀ i : ℕ, trimsToEmpty textValue = false → et.itemId = some i →
      (saveTextNote items (some et) textValue cw ch nid cat).call =
        some (TextPersistCall.updateText i textValue (min cw 600)
          (min ch 400))) ∧
    min cw 600 ≤ 600 ∧ min ch 400 ≤ 400 := by
  refine ⟨fun h => ?_, rfl, fun h hid => ?_, fun i h hid => ?_,
    min_le_right _ _, min_le_right _ _⟩
  · simp only [saveTextNote]
    rw [if_pos h]
  · simp only [saveTextNote]
    rw [if_neg (by simp [h]), hid]
  · simp only [saveTextNote]
    rw [if_neg (by simp [h]), hid]

/-- Witness for `saveTextNote_spec`: a non-empty draft with no `itemId`
issues the create-item call with clamped dimensions. -/
theorem saveTextNote_spec_witness :
    (saveTextNote [] (some { x := 30, y := 40 }) "hello" 700 500 9 1).call =
      some (TextPersistCall.insertText 30 40 (min (700 : ℚ) 600)
        (min (500 : ℚ) 400) "hello") :=
  (saveTextNote_spec [] { x := 30, y := 40 } "hello" 700 500 9 1).2.2.1
    (by decide) rfl

/-! ## Grouped movement on drag end (`handleItemDragEnd`, App.jsx 533-598) -/

/-- The containment test of `handleItemDragEnd` (App.jsx 551-561): is the
center `(i.x + i.width / 2, i.y + i.height / 2)` of item `i` within the
dragged rectangle's *pre-drag* bounds (inclusive)?  `rect` supplies the
width and height, `origX`/`origY` the pre-drag position recorded at drag
start. -/
def insideOriginalRect (rect : Item) (origX origY : ℚ) (i : Item) : Bool :=
  let itemCenterX := i.x + i.width / 2
  let itemCenterY := i.y + i.height / 2
  let rectLeft := origX
  let rectRight := origX + rect.width
  let rectTop := origY
  let rectBottom := origY + rect.height
  decide (rectLeft ≤ itemCenterX) && decide (itemCenterX ≤ rectRight) &&
    decide (rectTop ≤ itemCenterY) && decide (itemCenterY ≤ rectBottom)

/-- `handleItemDragEnd` (App.jsx 533-598): effect on the local item store
at drag end.  The dragged item is looked up by id; if it is a rectangle,
the non-rectangle items whose centers lie in the rectangle's pre-drag
bounds are collected (App.jsx 548-562) and each receives one state update
assigning the absolute position `insideItem.pos + delta` computed from the
pre-update store (App.jsx 565-576), where
`delta = (item.x - originalX, item.y - originalY)`. -/
def handleItemDragEnd (items : List Item) (dragId : ℕ)
    (origX origY : ℚ) : List Item :=
  match items.find? (fun i => i.id == dragId) with
  | none => items
  | some item =>
    let deltaX := item.x - origX
    let deltaY := item.y - origY
    if item.type = ItemType.rectangle then
      let insideItems := items.filter fun i =>
        !(i.id == item.id || i.type == ItemType.rectangle) &&
          insideOriginalRect item origX origY i
      insideItems.foldl
        (fun prevItems insideItem =>
          prevItems.map fun prevItem =>
            if prevItem.id = insideItem.id then
              { prevItem with x := insideItem.x + deltaX,
                              y := insideItem.y + deltaY }
            else prevItem)
        items
    else items

/-- A left fold of per-element list maps equals a single map folding the
updates over each element. -/
theorem foldl_map_eq_map_foldl {α β : Type} (u : β → α → α) :
    ∀ (l : List β) (xs : List α),
      l.foldl (fun acc j => acc.map (u j)) xs =
        xs.map fun p => l.foldl (fun q j => u j q) p
  | [], _ => by simp
  | j :: rest, xs => by
      simp only [List.foldl_cons]
      rw [foldl_map_eq_map_foldl u rest, List.map_map]
      rfl

/-- Folding the position updates of `handleItemDragEnd` over a list none of
whose elements share an id with `p` leaves `p` unchanged. -/
theorem foldl_posUpdate_of_ne (dX dY : ℚ) :
    ∀ (l : List Item) (p : Item), (∀ j ∈ l, p.id ≠ j.id) →
      l.foldl
        (fun q j =>
          if q.id = j.id then { q with x := j.x + dX, y := j.y + dY } else q)
        p = p
  | [], _, _ => rfl
  | j :: rest, p, h => by
      simp only [List.foldl_cons]
      rw [if_neg (h j (List.mem_cons_self j rest))]
      exact foldl_posUpdate_of_ne dX dY rest p fun j' hj' =>
        h j' (List.mem_cons_of_mem j hj')

/-- The Bool filter condition of App.jsx 548-562 as a proposition. -/
theorem dragCond_eq_true_iff (rect : Item) (origX origY : ℚ) (i : Item) :
    ((!(i.id == rect.id || i.type == ItemType.rectangle)) &&
        insideOriginalRect rect origX origY i) = true ↔
      (i.id ≠ rect.id ∧ i.type ≠ ItemType.rectangle ∧
        insideOriginalRect rect origX origY i = true) := by
  simp [Bool.and_eq_true, Bool.not_eq_true', Bool.or_eq_false_iff,
    beq_eq_false_iff_ne, and_assoc]

/-- C4: on drag end of a rectangle (looked up by id, with recorded pre-drag
position `(origX, origY)`), assuming distinct item ids, the store becomes
the pointwise map translating exactly the non-rectangle items other than
the dragged one whose centers lie inclusively within the rectangle's
pre-drag bounds by the drag delta, and leaving every other item — items
with centers outside the bounds and all other rectangles — unchanged. -/
theorem drag_end_moves_contained (items : List Item) (dragId : ℕ)
    (origX origY : ℚ) (rect : Item)
    (hfind : items.find? (fun i => i.id == dragId) = some rect)
    (hty : rect.type = ItemType.rectangle)
    (hids : (items.map Item.id).Nodup) :
    handleItemDragEnd items dragId origX origY =
      items.map fun i =>
        if i.id ≠ rect.id ∧ i.type ≠ ItemType.rectangle ∧
            insideOriginalRect rect origX origY i = true then
          { i with x := i.x + (rect.x - origX), y := i.y + (rect.y - origY) }
        else i := by
  have hinj : ∀ a ∈ items, ∀ b ∈ items, a.id = b.id → a = b :=
    fun a ha b hb hab => List.inj_on_of_nodup_map hids ha hb hab
  simp only [handleItemDragEnd, hfind]
  rw [if_pos hty, foldl_map_eq_map_foldl]
  apply List.map_congr_left
  intro p hp
  by_cases hc : ((!(p.id == rect.id || p.type == ItemType.rectangle)) &&
      insideOriginalRect rect origX origY p) = true
  · obtain ⟨h1, h2, h3⟩ := (dragCond_eq_true_iff rect origX origY p).mp hc
    rw [if_pos ⟨h1, h2, h3⟩]
    have hpfil : p ∈ items.filter fun i =>
        (!(i.id == rect.id || i.type == ItemType.rectangle)) &&
          insideOriginalRect rect origX origY i :=
      List.mem_filter.mpr ⟨hp, hc⟩
    obtain ⟨s, t, hst⟩ := List.append_of_mem hpfil
    have hfilnodup : ((s ++ p :: t).map Item.id).Nodup := by
      rw [← hst]
      exact hids.sublist ((List.filter_sublist items).map Item.id)
    rw [List.map_append, List.map_cons] at hfilnodup
    have hs' : ∀ j ∈ s, p.id ≠ j.id := by
      intro j hj hEq
      exact (List.nodup_append.mp hfilnodup).2.2
        (hEq ▸ List.mem_map_of_mem Item.id hj) (List.mem_cons_self _ _)
    have ht' : ∀ j ∈ t, p.id ≠ j.id := by
      intro j hj hEq
      exact (List.nodup_cons.mp (List.nodup_append.mp hfilnodup).2.1).1
        (hEq ▸ List.mem_map_of_mem Item.id hj)
    rw [hst, List.foldl_append, foldl_posUpdate_of_ne _ _ s p hs',
      List.foldl_cons, if_pos rfl]
    exact foldl_posUpdate_of_ne _ _ t _ ht'
  · have hnc : ∀ j ∈ (items.filter fun i =>
        (!(i.id == rect.id || i.type == ItemType.rectangle)) &&
          insideOriginalRect rect origX origY i), p.id ≠ j.id := by
      intro j hj hEq
      have hjmem := (List.mem_filter.mp hj).1
      have hjc := (List.mem_filter.mp hj).2
      exact hc (hinj p hp j hjmem hEq ▸ hjc)
    rw [foldl_posUpdate_of_ne _ _ _ p hnc, if_neg]
    intro hcon
    exact hc ((dragCond_eq_true_iff rect origX origY p).mpr hcon)

/-- The spec's containment example, dragged rectangle: originally at
`(0, 0)` with size `300 × 300`, shown here after a drag by `(+50, -20)`. -/
def draggedRectExample : Item :=
  { id := 1, type := ItemType.rectangle, x := 50, y := -20, width := 300,
    height := 300, created_at := 0 }

/-- A text item centered at `(150, 150)`, inside the example rectangle's
pre-drag bounds. -/
def textInsideExample : Item :=
  { id := 2, type := ItemType.text, x := 100, y := 140, width := 100,
    height := 20, content := some "in", created_at := 1 }

/-- A text item centered at `(400, 400)`, outside the example rectangle's
pre-drag bounds. -/
def textOutsideExample : Item :=
  { id := 3, type := ItemType.text, x := 375, y := 390, width := 50,
    height := 20, content := some "out", created_at := 2 }

/-- Witness for `drag_end_moves_contained`: the spec's containment example.
A rectangle originally at `(0, 0)` with size `300 × 300` is dragged by
`(+50, -20)`; a text item centered at `(150, 150)` is inside the pre-drag
bounds, a text item centered at `(400, 400)` is outside. -/
theorem drag_end_moves_contained_witness :
    handleItemDragEnd [draggedRectExample, textInsideExample,
        textOutsideExample] 1 0 0 =
      [draggedRectExample, textInsideExample, textOutsideExample].map
        (fun i =>
          if i.id ≠ draggedRectExample.id ∧ i.type ≠ ItemType.rectangle ∧
              insideOriginalRect draggedRectExample 0 0 i = true then
            { i with x := i.x + (draggedRectExample.x - 0),
                     y := i.y + (draggedRectExample.y - 0) }
          else i) :=
  drag_end_moves_contained
    [draggedRectExample, textInsideExample, textOutsideExample] 1 0 0
    draggedRectExample rfl rfl (by decide)

end Omnispace
